import Mathlib

set_option autoImplicit false
set_option linter.unusedVariables false

/-!
Shallow embedding of the lldb pretty printers for the static_vector repository
(`tools/pretty_static_string.py` and `tools/pretty_static_vector.py`).

The lldb SB API is modelled by explicit records: an `SBValue` handle records
the result of every accessor the decoders call, and a `Host` record supplies
the process-memory read and the typed-view materialisation.  Following the SB
API contract, plain accessors never raise; the calls that the source defends
with try/except blocks (Dereference, GetTemplateArgumentType,
GetTemplateArgumentAsUnsigned, int() parsing of textual values) are modelled
with `Option`, where `none` stands for the raising / absent outcome that the
corresponding except-branch swallows.
-/

/-- Facts about an element type handle (the SBType obtained from a template
argument): IsValid, GetName (None is modelled by `none`), GetByteSize. -/
structure ElemType where
  valid : Bool
  name : Option String
  byteSize : Nat
deriving DecidableEq, Repr

/-- Facts about a value handle type (`GetType`): GetTemplateArgumentType(0)
(`none` when the call raises) and GetTemplateArgumentAsUnsigned(1) (`none`
when the call raises). -/
structure TypeInfo where
  valid : Bool
  tmpl0 : Option ElemType
  tmplNat1 : Option Nat
deriving DecidableEq, Repr

/-- An inspected value handle.  Fields record the results of the SB API
accessors the decoders use: IsValid, IsBaseClass, GetValueAsUnsigned (`none`
when the value cannot be fetched, in which case the passed default is
returned), GetValue, GetSummary, GetLoadAddress, AddressOf().GetLoadAddress(),
Dereference (`none` models the raising outcome), GetType, member lookup for
GetChildMemberWithName (absent members behave as the invalid value lldb
returns) and the child list for GetNumChildren / GetChildAtIndex. -/
inductive SBValue : Type where
  | mk (valid : Bool) (isBase : Bool) (uval : Option Nat) (sval : Option String)
      (summ : Option String) (loadAddr : Nat) (addrOfLoad : Nat)
      (deref : Option SBValue) (typ : TypeInfo)
      (members : List (String × SBValue)) (children : List SBValue)

namespace SBValue

def valid : SBValue → Bool
  | mk v _ _ _ _ _ _ _ _ _ _ => v

def isBase : SBValue → Bool
  | mk _ b _ _ _ _ _ _ _ _ _ => b

def uval : SBValue → Option Nat
  | mk _ _ u _ _ _ _ _ _ _ _ => u

def sval : SBValue → Option String
  | mk _ _ _ s _ _ _ _ _ _ _ => s

def summ : SBValue → Option String
  | mk _ _ _ _ s _ _ _ _ _ _ => s

def loadAddr : SBValue → Nat
  | mk _ _ _ _ _ a _ _ _ _ _ => a

def addrOfLoad : SBValue → Nat
  | mk _ _ _ _ _ _ a _ _ _ _ => a

def deref : SBValue → Option SBValue
  | mk _ _ _ _ _ _ _ d _ _ _ => d

def typ : SBValue → TypeInfo
  | mk _ _ _ _ _ _ _ _ t _ _ => t

def members : SBValue → List (String × SBValue)
  | mk _ _ _ _ _ _ _ _ _ ms _ => ms

def children : SBValue → List SBValue
  | mk _ _ _ _ _ _ _ _ _ _ cs => cs

/-- GetChildMemberWithName: first member with the given name, `none` when the
lookup yields nothing (lldb then hands back an invalid value). -/
def lookupMember : List (String × SBValue) → String → Option SBValue
  | [], _ => none
  | (k, m) :: rest, n => if k = n then some m else lookupMember rest n

end SBValue

/-- The debugger host surface: ReadMemory on the process (`none` models the
SBError-failed or data-is-None outcome) and CreateValueFromAddress. -/
structure Host where
  readMemory : Nat → Nat → Option (List Nat)
  create : String → Nat → ElemType → SBValue

/-- Truthiness of an optional SBType in Python: `None` is falsy and an SBType
is truthy exactly when it IsValid. -/
def truthyElem : Option ElemType → Bool
  | some t => t.valid
  | none => false

/-- Byte size selection `elem_type.GetByteSize() if elem_type else 0`. -/
def elemTypeSize (et : Option ElemType) : Nat :=
  match et with
  | some t => if t.valid then t.byteSize else 0
  | none => 0

/-- The replacement character emitted by errors=replace decoding. -/
def replChar : Char := '�'

/-- Continuation byte test for UTF-8. -/
def isCont (b : Nat) : Bool := 0x80 ≤ b && b ≤ 0xBF

/-- First-continuation range check for a three-byte lead. -/
def cont1ok3 (lead c1 : Nat) : Bool :=
  if lead = 0xE0 then 0xA0 ≤ c1 && c1 ≤ 0xBF
  else if lead = 0xED then 0x80 ≤ c1 && c1 ≤ 0x9F
  else isCont c1

/-- First-continuation range check for a four-byte lead. -/
def cont1ok4 (lead c1 : Nat) : Bool :=
  if lead = 0xF0 then 0x90 ≤ c1 && c1 ≤ 0xBF
  else if lead = 0xF4 then 0x80 ≤ c1 && c1 ≤ 0x8F
  else isCont c1

/-- UTF-8 decoding with replacement on error, as bytes.decode(utf-8,
errors=replace) performs it: each maximal invalid subpart is replaced by one
replacement character and decoding resumes at the offending byte. -/
def utf8Go : List Nat → List Char
  | [] => []
  | b :: rest =>
    if b < 0x80 then Char.ofNat b :: utf8Go rest
    else if b < 0xC2 then replChar :: utf8Go rest
    else if b ≤ 0xDF then
      match rest with
      | c1 :: rest1 =>
        if isCont c1 then Char.ofNat ((b - 0xC0) * 64 + (c1 - 0x80)) :: utf8Go rest1
        else replChar :: utf8Go (c1 :: rest1)
      | [] => [replChar]
    else if b ≤ 0xEF then
      match rest with
      | c1 :: rest1 =>
        if cont1ok3 b c1 then
          match rest1 with
          | c2 :: rest2 =>
            if isCont c2 then
              Char.ofNat ((b - 0xE0) * 4096 + (c1 - 0x80) * 64 + (c2 - 0x80)) :: utf8Go rest2
            else replChar :: utf8Go (c2 :: rest2)
          | [] => [replChar]
        else replChar :: utf8Go (c1 :: rest1)
      | [] => [replChar]
    else if b ≤ 0xF4 then
      match rest with
      | c1 :: rest1 =>
        if cont1ok4 b c1 then
          match rest1 with
          | c2 :: rest2 =>
            if isCont c2 then
              match rest2 with
              | c3 :: rest3 =>
                if isCont c3 then
                  Char.ofNat ((b - 0xF0) * 262144 + (c1 - 0x80) * 4096 +
                    (c2 - 0x80) * 64 + (c3 - 0x80)) :: utf8Go rest3
                else replChar :: utf8Go (c3 :: rest3)
              | [] => [replChar]
            else replChar :: utf8Go (c2 :: rest2)
          | [] => [replChar]
        else replChar :: utf8Go (c1 :: rest1)
      | [] => [replChar]
    else replChar :: utf8Go rest

/-- bytes.decode(utf-8, errors=replace) on a byte list. -/
def decodeUtf8Replace (bs : List Nat) : String := String.mk (utf8Go bs)

/-- Expansion of one character under the display escaping of the source.  The
source chains four str.replace calls on distinct single-character patterns
(backslash, newline, carriage return, tab); since the patterns are distinct
single characters and no replacement text re-triggers a later pattern, that
chain equals this single-pass character expansion. -/
def escChar (c : Char) : List Char :=
  if c = '\\' then ['\\', '\\']
  else if c = '\n' then ['\\', 'n']
  else if c = '\r' then ['\\', 'r']
  else if c = '\t' then ['\\', 't']
  else [c]

/-- The chained replace-based escaping of the source. -/
def escapeDisplay (s : String) : String := String.mk (s.toList.map escChar).flatten

namespace PrettyStaticString

open SBValue

mutual

/-- Member search of pretty_static_string.py: direct child first, then a
recursive search through valid base-class children, returning the first valid
hit and `none` when nothing is found. -/
def findMemberRecursive : SBValue → String → Option SBValue
  | .mk _ _ _ _ _ _ _ _ _ ms cs, name =>
    match lookupMember ms name with
    | some m => if m.valid then some m else findMemberInBases cs name
    | none => findMemberInBases cs name

/-- The base-class loop of the recursive member search. -/
def findMemberInBases : List SBValue → String → Option SBValue
  | [], _ => none
  | c :: rest, name =>
    if c.valid && c.isBase then
      match findMemberRecursive c name with
      | some m => if m.valid then some m else findMemberInBases rest name
      | none => findMemberInBases rest name
    else findMemberInBases rest name

end

/-- Lines 42-46 of pretty_static_string.py: length from the head/tail pair,
clamped by a nonzero capacity and then by the basic sanity bound. -/
def clampedLength (head_addr tail_addr cap : Nat) : Nat :=
  let length := tail_addr - head_addr
  let length := if cap ≠ 0 then min length cap else length
  max 0 (min length (1 <<< 31))

/-- Lines 55-73 of pretty_static_string.py applied to the preview bytes that
remain after the NUL truncation: decode with replacement, escape for display
and truncate the display to 200 characters plus an ellipsis. -/
def displayText (b : List Nat) : String :=
  let s := decodeUtf8Replace b
  let s_disp := escapeDisplay s
  if 200 < s_disp.length then String.mk (s_disp.toList.take 200) ++ "…" else s_disp

/-- static_string_summary of pretty_static_string.py.  The body is total in
this model (every fallible call is collapsed before it can escape), so the
outer try/except never fires and its error branch is unreachable. -/
def static_string_summary (host : Host) (valobj : SBValue) : String :=
  match findMemberRecursive valobj "head_", findMemberRecursive valobj "tail_",
      findMemberRecursive valobj "max_length_" with
  | some head, some tail, some maxl =>
    let head_addr := head.uval.getD 0
    let tail_addr := tail.uval.getD 0
    let cap := maxl.uval.getD 0
    if head_addr = 0 ∨ tail_addr = 0 ∨ tail_addr < head_addr then
      "\"\" len=0 cap=" ++ toString cap
    else
      let length := clampedLength head_addr tail_addr cap
      let preview_len := min length 1024
      match host.readMemory head_addr preview_len with
      | none =>
        "<static_string: unreadable memory> len=" ++ toString length ++
          " cap=" ++ toString cap
      | some data =>
        let b := match data.findIdx? (fun x => x == 0) with
          | some nul => data.take nul
          | none => data
        "\"" ++ displayText b ++ "\" len=" ++ toString length ++ " cap=" ++ toString cap
  | _, _, _ => "<static_string: layout not found>"

/-- Lines 48-63 of pretty_static_string.py, isolated: the bytes the summary
feeds to textual decoding are at most 1024 bytes read from head (a read of
min(length, 1024) bytes), truncated at the first NUL among the bytes read;
`none` models the unreadable-memory outcome. -/
def previewBytes (host : Host) (head_addr length : Nat) : Option (List Nat) :=
  match host.readMemory head_addr (min length 1024) with
  | none => none
  | some data =>
    some (match data.findIdx? (fun x => x == 0) with
      | some nul => data.take nul
      | none => data)

/-- The decoded textual preview of the summary: the preview bytes decoded
with replacement, before display escaping and display truncation. -/
def previewText (host : Host) (head_addr length : Nat) : Option String :=
  (previewBytes host head_addr length).map decodeUtf8Replace

end PrettyStaticString

namespace PrettyStaticVector

open SBValue

/-- Member search of pretty_static_vector.py: direct lookup only (the vector
types do not use inheritance for the relevant fields), valid hits only. -/
def findMemberDirect (valobj : SBValue) (name : String) : Option SBValue :=
  match lookupMember valobj.members name with
  | some m => if m.valid then some m else none
  | none => none

/-- GetValueAsUnsigned with an integer default, as step 1 and step 3 of
read_unsigned_value use it. -/
def uvalOrDefault (v : SBValue) (default : Int) : Int :=
  match v.uval with
  | some n => (n : Int)
  | none => default

/-- Hexadecimal digit value. -/
def hexDigitVal (c : Char) : Option Nat :=
  if '0' ≤ c ∧ c ≤ '9' then some (c.toNat - 48)
  else if 'a' ≤ c ∧ c ≤ 'f' then some (c.toNat - 87)
  else if 'A' ≤ c ∧ c ≤ 'F' then some (c.toNat - 70)
  else none

/-- Accumulate decimal digits; fails on a non-digit. -/
def decDigitsAux : List Char → Nat → Option Nat
  | [], acc => some acc
  | c :: rest, acc =>
    if c.isDigit then decDigitsAux rest (acc * 10 + (c.toNat - 48)) else none

/-- Nonempty all-decimal digit run. -/
def decDigits (cs : List Char) : Option Nat :=
  match cs with
  | [] => none
  | _ => decDigitsAux cs 0

/-- Accumulate hexadecimal digits; fails on a non-digit. -/
def hexDigitsAux : List Char → Nat → Option Nat
  | [], acc => some acc
  | c :: rest, acc =>
    match hexDigitVal c with
    | some d => hexDigitsAux rest (acc * 16 + d)
    | none => none

/-- Nonempty all-hexadecimal digit run. -/
def hexDigits (cs : List Char) : Option Nat :=
  match cs with
  | [] => none
  | _ => hexDigitsAux cs 0

/-- Parse in the manner of int(s) on an already stripped string: optional
sign, then decimal digits.  Grouping underscores are not modelled.  `none`
stands for the ValueError the source catches. -/
def pyParseIntDec (s : String) : Option Int :=
  match s.toList with
  | '-' :: rest => (decDigits rest).map (fun n => -(n : Int))
  | '+' :: rest => (decDigits rest).map (fun n => (n : Int))
  | cs => (decDigits cs).map (fun n => (n : Int))

/-- Parse in the manner of int(s, 16) on an already stripped string: optional
sign, optional 0x/0X marker, then hexadecimal digits.  `none` stands for the
ValueError the source catches. -/
def pyParseIntHex (s : String) : Option Int :=
  let core := fun (cs : List Char) =>
    match cs with
    | '0' :: 'x' :: r => hexDigits r
    | '0' :: 'X' :: r => hexDigits r
    | r => hexDigits r
  match s.toList with
  | '-' :: rest => (core rest).map (fun n => -(n : Int))
  | '+' :: rest => (core rest).map (fun n => (n : Int))
  | cs => (core cs).map (fun n => (n : Int))

/-- Step 3 of read_unsigned_value: the direct unsigned accessor (its guarding
try/except is unreachable because the accessor never raises). -/
def ruvStep3 (v : SBValue) (default : Int) : Int :=
  uvalOrDefault v default

/-- Step 2 of read_unsigned_value: parse the textual value, trying a second
dereference first when the text looks address-shaped; any failure continues
with step 3. -/
def ruvStep2 (v : SBValue) (default : Int) : Int :=
  match v.sval with
  | none => ruvStep3 v default
  | some s0 =>
    let s := s0.trim
    if s.length = 0 then ruvStep3 v default
    else if s.startsWith "0x" || s.startsWith "-0x" then
      match v.deref with
      | some d2 =>
        if d2.valid then uvalOrDefault d2 default
        else
          match pyParseIntHex s with
          | some k => k
          | none => ruvStep3 v default
      | none =>
        match pyParseIntHex s with
        | some k => k
        | none => ruvStep3 v default
    else
      match pyParseIntDec s with
      | some k => k
      | none => ruvStep3 v default

/-- _read_unsigned_value of pretty_static_vector.py: quick exits on a missing
or invalid value, then dereference, then textual parsing, then the raw
unsigned accessor. -/
def read_unsigned_value (sbval : Option SBValue) (default : Int) : Int :=
  match sbval with
  | none => default
  | some v =>
    if ¬ v.valid then default
    else
      match v.deref with
      | some d => if d.valid then uvalOrDefault d default else ruvStep2 v default
      | none => ruvStep2 v default

/-- _get_template_elem_type: GetTemplateArgumentType(0) with the raising
outcome collapsed to None. -/
def getTemplateElemType (valobj : SBValue) : Option ElemType :=
  valobj.typ.tmpl0

/-- One probe of _get_arr_first_byte_addr: the named member, when valid and
nonempty, yields the load address of its first child. -/
def arrElemsFirstAddr (arr_val : SBValue) (name : String) : Option Nat :=
  match lookupMember arr_val.members name with
  | some m =>
    if m.valid then
      match m.children with
      | first :: _ => some first.loadAddr
      | [] => none
    else none
  | none => none

/-- _get_arr_first_byte_addr of pretty_static_vector.py: probe _M_elems, then
__elems_, then fall back to the address of the array value itself. -/
def get_arr_first_byte_addr (arr_val : SBValue) : Nat :=
  match arrElemsFirstAddr arr_val "_M_elems" with
  | some a => a
  | none =>
    match arrElemsFirstAddr arr_val "__elems_" with
    | some a => a
    | none => arr_val.addrOfLoad

/-- One probe of _get_arr_num_bytes: the named member, when valid, yields its
child count. -/
def arrNumBytesVia (arr_val : SBValue) (name : String) : Option Nat :=
  match lookupMember arr_val.members name with
  | some m => if m.valid then some m.children.length else none
  | none => none

/-- _get_arr_num_bytes of pretty_static_vector.py: child count of _M_elems,
else of __elems_, else the non-type template argument of the array type with
the raising outcome collapsed to 0. -/
def get_arr_num_bytes (arr_val : SBValue) : Nat :=
  match arrNumBytesVia arr_val "_M_elems" with
  | some n => n
  | none =>
    match arrNumBytesVia arr_val "__elems_" with
    | some n => n
    | none => arr_val.typ.tmplNat1.getD 0

/-- The size derivation shared by StaticVectorSummary and the synthetic
provider layout: unsigned value of the elementsCount member, 0 when absent. -/
def readElementsCount (valobj : SBValue) : Nat :=
  match findMemberDirect valobj "elementsCount" with
  | some szm => szm.uval.getD 0
  | none => 0

/-- Element display selection of the preview loops: GetValue, else GetSummary,
else the element type name with Python-falsy names replaced by a question
mark. -/
def dispOf (sbv : SBValue) (t : ElemType) : String :=
  match sbv.sval with
  | some d => d
  | none =>
    match sbv.summ with
    | some d => d
    | none =>
      match t.name with
      | some nm => if nm = "" then "?" else nm
      | none => "?"

/-- State of StaticVectorSynthProvider: the inspected value plus the cached
element type, element size, data address and size (None until computed). -/
structure VecSynthState where
  valobj : SBValue
  elemType : Option ElemType
  elemSize : Nat
  dataAddr : Option Nat
  size : Option Nat

namespace StaticVectorSynthProvider

/-- The constructor of StaticVectorSynthProvider. -/
def init (valobj : SBValue) : VecSynthState :=
  { valobj := valobj
    elemType := getTemplateElemType valobj
    elemSize := elemTypeSize (getTemplateElemType valobj)
    dataAddr := none
    size := none }

/-- update: re-derive the element type facts and clear the cached layout. -/
def update (st : VecSynthState) : VecSynthState :=
  { st with
    elemType := getTemplateElemType st.valobj
    elemSize := elemTypeSize (getTemplateElemType st.valobj)
    dataAddr := none
    size := none }

/-- _compute_layout: a no-op when both cached facts are present, otherwise
derive size from elementsCount and the data address from the backing array. -/
def computeLayout (st : VecSynthState) : VecSynthState :=
  if st.dataAddr.isSome && st.size.isSome then st
  else
    let sz := readElementsCount st.valobj
    let da := match findMemberDirect st.valobj "arr" with
      | some arr => get_arr_first_byte_addr arr
      | none => 0
    { st with size := some sz, dataAddr := some da }

/-- num_children of StaticVectorSynthProvider. -/
def num_children (st : VecSynthState) : Nat :=
  ((computeLayout st).size).getD 0

/-- get_child_at_index of StaticVectorSynthProvider; the absent child
lldb.SBValue() is modelled by `none` and a created child by the (name,
address, type) triple handed to CreateValueFromAddress. -/
def get_child_at_index (st : VecSynthState) (index : Int) : Option (String × Nat × ElemType) :=
  let st' := computeLayout st
  let sz : Int := ((st'.size).getD 0 : Nat)
  let da := (st'.dataAddr).getD 0
  if index < 0 ∨ sz ≤ index ∨ truthyElem st'.elemType = false ∨ da = 0 then none
  else
    match st'.elemType with
    | some t => some ("[" ++ toString index ++ "]", da + index.toNat * st'.elemSize, t)
    | none => none

/-- has_children of StaticVectorSynthProvider. -/
def has_children (st : VecSynthState) : Bool :=
  decide (0 < ((computeLayout st).size).getD 0)

end StaticVectorSynthProvider

/-- StaticVectorSummary of pretty_static_vector.py.  The body is total in this
model, so the outer try/except never fires and its error branch is
unreachable. -/
def StaticVectorSummary (host : Host) (valobj : SBValue) : String :=
  let size := readElementsCount valobj
  match findMemberDirect valobj "arr" with
  | none => "static_vector(size=" ++ toString size ++ ")"
  | some arr =>
    let elem_type := getTemplateElemType valobj
    let elem_sz := elemTypeSize elem_type
    let total_bytes := get_arr_num_bytes arr
    let cap := if elem_sz ≠ 0 then total_bytes / elem_sz else 0
    let preview :=
      match elem_type with
      | some t =>
        if 0 < size ∧ t.valid then
          let base := get_arr_first_byte_addr arr
          let count := min 4 size
          let parts := (List.range count).map (fun i =>
            dispOf (host.create "tmp" (base + i * elem_sz) t) t)
          if count < size then " [" ++ String.intercalate ", " parts ++ ", …]"
          else " [" ++ String.intercalate ", " parts ++ "]"
        else ""
      | none => ""
    "static_vector(size=" ++ toString size ++ ", cap=" ++ toString cap ++ ")" ++ preview

/-- State of StaticVectorAdapterSynthProvider: the inspected value plus the
cached element type, element size, base address and size (None until
computed). -/
structure AdapterSynthState where
  valobj : SBValue
  elemType : Option ElemType
  elemSize : Nat
  baseAddr : Option Nat
  size : Option Int

namespace StaticVectorAdapterSynthProvider

/-- The constructor of StaticVectorAdapterSynthProvider. -/
def init (valobj : SBValue) : AdapterSynthState :=
  { valobj := valobj
    elemType := getTemplateElemType valobj
    elemSize := elemTypeSize (getTemplateElemType valobj)
    baseAddr := none
    size := none }

/-- update: re-derive the element type facts and clear the cached layout. -/
def update (st : AdapterSynthState) : AdapterSynthState :=
  { st with
    elemType := getTemplateElemType st.valobj
    elemSize := elemTypeSize (getTemplateElemType st.valobj)
    baseAddr := none
    size := none }

/-- _compute_layout: size through the coercing reader on elements_count_ and
the base address from the elements_ pointer. -/
def computeLayout (st : AdapterSynthState) : AdapterSynthState :=
  if st.baseAddr.isSome && st.size.isSome then st
  else
    let sz := read_unsigned_value (findMemberDirect st.valobj "elements_count_") 0
    let ba := match findMemberDirect st.valobj "elements_" with
      | some p => p.uval.getD 0
      | none => 0
    { st with size := some sz, baseAddr := some ba }

/-- num_children of StaticVectorAdapterSynthProvider. -/
def num_children (st : AdapterSynthState) : Int :=
  ((computeLayout st).size).getD 0

/-- get_child_at_index of StaticVectorAdapterSynthProvider; unlike the
byte-array provider it also rejects a zero element size. -/
def get_child_at_index (st : AdapterSynthState) (index : Int) : Option (String × Nat × ElemType) :=
  let st' := computeLayout st
  let sz := (st'.size).getD 0
  let ba := (st'.baseAddr).getD 0
  if index < 0 ∨ sz ≤ index ∨ truthyElem st'.elemType = false ∨ ba = 0 ∨ st'.elemSize = 0 then
    none
  else
    match st'.elemType with
    | some t => some ("[" ++ toString index ++ "]", ba + index.toNat * st'.elemSize, t)
    | none => none

/-- has_children of StaticVectorAdapterSynthProvider. -/
def has_children (st : AdapterSynthState) : Bool :=
  decide (0 < ((computeLayout st).size).getD 0)

end StaticVectorAdapterSynthProvider

/-- StaticVectorAdapterSummary of pretty_static_vector.py.  The body is total
in this model, so the outer try/except never fires and its error branch is
unreachable. -/
def StaticVectorAdapterSummary (host : Host) (valobj : SBValue) : String :=
  let size := read_unsigned_value (findMemberDirect valobj "elements_count_") 0
  let cap := read_unsigned_value (findMemberDirect valobj "max_elements_count_") 0
  let elem_type := getTemplateElemType valobj
  let elem_sz := elemTypeSize elem_type
  let base := match findMemberDirect valobj "elements_" with
    | some p => p.uval.getD 0
    | none => 0
  let preview :=
    match elem_type with
    | some t =>
      if 0 < size ∧ t.valid ∧ base ≠ 0 ∧ 0 < elem_sz then
        let count : Int := min 4 size
        let parts := (List.range count.toNat).map (fun i =>
          dispOf (host.create "tmp" (base + i * elem_sz) t) t)
        if count < size then " [" ++ String.intercalate ", " parts ++ ", …]"
        else " [" ++ String.intercalate ", " parts ++ "]"
      else ""
    | none => ""
  "static_vector_adapter(size=" ++ toString size ++ ", cap=" ++ toString cap ++ ")" ++ preview

end PrettyStaticVector

/-! Specification-side definitions (worded after the claims, to be compared
with the source-derived definitions above) and the claim theorems. -/

/-- Associativity of string concatenation, used to regroup summary shapes. -/
theorem strAppendAssoc (a b c : String) : a ++ b ++ c = a ++ (b ++ c) := by
  rcases a with ⟨la⟩
  rcases b with ⟨lb⟩
  rcases c with ⟨lc⟩
  show String.mk (la ++ lb ++ lc) = String.mk (la ++ (lb ++ lc))
  rw [List.append_assoc]

/-- Length formula worded after the claim: tail minus head, clamped first to
the capacity when the capacity is nonzero and then to the 2 to the 31 sanity
bound. -/
def clampSpecLen (head_addr tail_addr cap : Nat) : Nat :=
  min (if cap = 0 then tail_addr - head_addr else min (tail_addr - head_addr) cap) (2 ^ 31)

/-- The source length computation agrees with the claim-worded clamp. -/
theorem clampedLength_eq_clampSpecLen (h t c : Nat) :
    PrettyStaticString.clampedLength h t c = clampSpecLen h t c := by
  unfold PrettyStaticString.clampedLength clampSpecLen
  by_cases hc : c = 0 <;>
    simp [hc, Nat.shiftLeft_eq, Nat.zero_max]

/-- C2: with head and tail nonzero and tail at least head, the static-string
summary reports exactly the claimed clamped length (and the declared
capacity), in both the readable-memory and unreadable-memory outcomes. -/
theorem c2_reported_len_clamped (host : Host) (v hd tl mx : SBValue)
    (hh : PrettyStaticString.findMemberRecursive v "head_" = some hd)
    (ht : PrettyStaticString.findMemberRecursive v "tail_" = some tl)
    (hm : PrettyStaticString.findMemberRecursive v "max_length_" = some mx)
    (hH : hd.uval.getD 0 ≠ 0) (hT : tl.uval.getD 0 ≠ 0)
    (hle : hd.uval.getD 0 ≤ tl.uval.getD 0) :
    ∃ p : String,
      PrettyStaticString.static_string_summary host v =
        p ++ " len=" ++
          toString (clampSpecLen (hd.uval.getD 0) (tl.uval.getD 0) (mx.uval.getD 0)) ++
          " cap=" ++ toString (mx.uval.getD 0) := by
  have hcond : ¬ (hd.uval.getD 0 = 0 ∨ tl.uval.getD 0 = 0 ∨ tl.uval.getD 0 < hd.uval.getD 0) := by
    rintro (h | h | h)
    · exact hH h
    · exact hT h
    · omega
  unfold PrettyStaticString.static_string_summary
  rw [hh, ht, hm]
  simp only [hcond, if_false, clampedLength_eq_clampSpecLen]
  cases hr : host.readMemory (hd.uval.getD 0)
      (min (clampSpecLen (hd.uval.getD 0) (tl.uval.getD 0) (mx.uval.getD 0)) 1024) with
  | none => exact ⟨"<static_string: unreadable memory>", rfl⟩
  | some data =>
    set dt := PrettyStaticString.displayText
      (match data.findIdx? (fun x => x == 0) with
        | some nul => data.take nul
        | none => data) with hdt
    refine ⟨"\"" ++ dt ++ "\"", ?_⟩
    rw [strAppendAssoc ("\"" ++ dt) "\"" " len="]
    rfl

/-- C3: with the layout found and a zero head, a zero tail or an inverted
head/tail pair, the static-string summary reports exactly length zero with
the declared capacity. -/
theorem c3_zero_or_inverted_reports_len0 (host : Host) (v hd tl mx : SBValue)
    (hh : PrettyStaticString.findMemberRecursive v "head_" = some hd)
    (ht : PrettyStaticString.findMemberRecursive v "tail_" = some tl)
    (hm : PrettyStaticString.findMemberRecursive v "max_length_" = some mx)
    (h0 : hd.uval.getD 0 = 0 ∨ tl.uval.getD 0 = 0 ∨ tl.uval.getD 0 < hd.uval.getD 0) :
    PrettyStaticString.static_string_summary host v =
      "\"\" len=0 cap=" ++ toString (mx.uval.getD 0) := by
  unfold PrettyStaticString.static_string_summary
  rw [hh, ht, hm]
  simp only [h0, if_true]

/-- C6: when the preview read succeeds and the returned bytes have their first
NUL at offset k (with k below the reported length), the textual preview of the
static-string summary is rendered from exactly the first k bytes. -/
theorem c6_preview_stops_at_nul (host : Host) (v hd tl mx : SBValue) (b : List Nat) (k : Nat)
    (hh : PrettyStaticString.findMemberRecursive v "head_" = some hd)
    (ht : PrettyStaticString.findMemberRecursive v "tail_" = some tl)
    (hm : PrettyStaticString.findMemberRecursive v "max_length_" = some mx)
    (hH : hd.uval.getD 0 ≠ 0) (hT : tl.uval.getD 0 ≠ 0)
    (hle : hd.uval.getD 0 ≤ tl.uval.getD 0)
    (hr : host.readMemory (hd.uval.getD 0)
        (min (PrettyStaticString.clampedLength (hd.uval.getD 0) (tl.uval.getD 0)
          (mx.uval.getD 0)) 1024) = some b)
    (hk : b.findIdx? (fun x => x == 0) = some k)
    (hkl : k < PrettyStaticString.clampedLength (hd.uval.getD 0) (tl.uval.getD 0)
        (mx.uval.getD 0)) :
    PrettyStaticString.static_string_summary host v =
      "\"" ++ PrettyStaticString.displayText (b.take k) ++ "\" len=" ++
        toString (PrettyStaticString.clampedLength (hd.uval.getD 0) (tl.uval.getD 0)
          (mx.uval.getD 0)) ++
        " cap=" ++ toString (mx.uval.getD 0) := by
  have hcond : ¬ (hd.uval.getD 0 = 0 ∨ tl.uval.getD 0 = 0 ∨ tl.uval.getD 0 < hd.uval.getD 0) := by
    rintro (h | h | h)
    · exact hH h
    · exact hT h
    · omega
  unfold PrettyStaticString.static_string_summary
  rw [hh, ht, hm]
  simp only [hcond, if_false]
  rw [hr]
  simp only [hk]

/-- C1: no failure escapes a decoder call.  In this embedding every host
primitive follows the no-raise SB API contract and every Python-level
fallible step (dereference, template-argument queries, int parsing) is
modelled with its raising outcome collapsed exactly where the source catches
it, so each summary function is total and its output always takes one of the
source's shapes, and the synthetic-children operations always deliver a
count, a Boolean, and either an absent child or a created child. -/
theorem c1_no_failure_escapes (host : Host) (v : SBValue)
    (stv : PrettyStaticVector.VecSynthState) (sta : PrettyStaticVector.AdapterSynthState)
    (i j : Int) :
    (PrettyStaticString.static_string_summary host v = "<static_string: layout not found>" ∨
      (∃ l c : Nat, PrettyStaticString.static_string_summary host v =
        "<static_string: unreadable memory> len=" ++ toString l ++ " cap=" ++ toString c) ∨
      (∃ (d : String) (l c : Nat), PrettyStaticString.static_string_summary host v =
        "\"" ++ d ++ "\" len=" ++ toString l ++ " cap=" ++ toString c)) ∧
    ((∃ n : Nat, PrettyStaticVector.StaticVectorSummary host v =
        "static_vector(size=" ++ toString n ++ ")") ∨
      (∃ (n c : Nat) (p : String), PrettyStaticVector.StaticVectorSummary host v =
        "static_vector(size=" ++ toString n ++ ", cap=" ++ toString c ++ ")" ++ p)) ∧
    (∃ (n c : Int) (p : String), PrettyStaticVector.StaticVectorAdapterSummary host v =
      "static_vector_adapter(size=" ++ toString n ++ ", cap=" ++ toString c ++ ")" ++ p) ∧
    (PrettyStaticVector.StaticVectorSynthProvider.get_child_at_index stv i = none ∨
      ∃ ch, PrettyStaticVector.StaticVectorSynthProvider.get_child_at_index stv i = some ch) ∧
    (PrettyStaticVector.StaticVectorAdapterSynthProvider.get_child_at_index sta j = none ∨
      ∃ ch, PrettyStaticVector.StaticVectorAdapterSynthProvider.get_child_at_index sta j = some ch) ∧
    (PrettyStaticVector.StaticVectorSynthProvider.has_children stv = false ∨
      PrettyStaticVector.StaticVectorSynthProvider.has_children stv = true) ∧
    (PrettyStaticVector.StaticVectorAdapterSynthProvider.has_children sta = false ∨
      PrettyStaticVector.StaticVectorAdapterSynthProvider.has_children sta = true) := by
  refine ⟨?_, ?_, ?_, ?_, ?_, ?_, ?_⟩
  · unfold PrettyStaticString.static_string_summary
    cases h1 : PrettyStaticString.findMemberRecursive v "head_" with
    | none => exact Or.inl rfl
    | some hd =>
      cases h2 : PrettyStaticString.findMemberRecursive v "tail_" with
      | none => exact Or.inl rfl
      | some tl =>
        cases h3 : PrettyStaticString.findMemberRecursive v "max_length_" with
        | none => exact Or.inl rfl
        | some mx =>
          by_cases hz : hd.uval.getD 0 = 0 ∨ tl.uval.getD 0 = 0 ∨
              tl.uval.getD 0 < hd.uval.getD 0
          · simp only [hz, if_true]
            exact Or.inr (Or.inr ⟨"", 0, mx.uval.getD 0, rfl⟩)
          · simp only [hz, if_false]
            cases hr : host.readMemory (hd.uval.getD 0)
                (min (PrettyStaticString.clampedLength (hd.uval.getD 0) (tl.uval.getD 0)
                  (mx.uval.getD 0)) 1024) with
            | none =>
              exact Or.inr (Or.inl ⟨PrettyStaticString.clampedLength (hd.uval.getD 0)
                (tl.uval.getD 0) (mx.uval.getD 0), mx.uval.getD 0, rfl⟩)
            | some data =>
              exact Or.inr (Or.inr ⟨PrettyStaticString.displayText
                (match data.findIdx? (fun x => x == 0) with
                  | some nul => data.take nul
                  | none => data),
                PrettyStaticString.clampedLength (hd.uval.getD 0) (tl.uval.getD 0)
                  (mx.uval.getD 0), mx.uval.getD 0, rfl⟩)
  · unfold PrettyStaticVector.StaticVectorSummary
    cases harr : PrettyStaticVector.findMemberDirect v "arr" with
    | none => exact Or.inl ⟨PrettyStaticVector.readElementsCount v, rfl⟩
    | some arr => exact Or.inr ⟨_, _, _, rfl⟩
  · exact ⟨_, _, _, rfl⟩
  · cases hx : PrettyStaticVector.StaticVectorSynthProvider.get_child_at_index stv i with
    | none => exact Or.inl rfl
    | some ch => exact Or.inr ⟨ch, rfl⟩
  · cases hx : PrettyStaticVector.StaticVectorAdapterSynthProvider.get_child_at_index sta j with
    | none => exact Or.inl rfl
    | some ch => exact Or.inr ⟨ch, rfl⟩
  · cases hb : PrettyStaticVector.StaticVectorSynthProvider.has_children stv with
    | false => exact Or.inl rfl
    | true => exact Or.inr rfl
  · cases hb : PrettyStaticVector.StaticVectorAdapterSynthProvider.has_children sta with
    | false => exact Or.inl rfl
    | true => exact Or.inr rfl

/-! Concrete inspection scenarios used by the witness theorems. -/

/-- A type record with no facts. -/
def tiNone : TypeInfo := ⟨false, none, none⟩

/-- A valid scalar field whose unsigned read yields n. -/
def uleaf (n : Nat) : SBValue :=
  .mk true false (some n) none none 0 0 none tiNone [] []

/-- An invalid value, as lldb.SBValue() produces. -/
def blankSB : SBValue :=
  .mk false false none none none 0 0 none tiNone [] []

/-- A static-string object at head 0x1000, tail 0x1005, capacity 16. -/
def strObjA : SBValue :=
  .mk true false none none none 0 0 none tiNone
    [("head_", uleaf 4096), ("tail_", uleaf 4101), ("max_length_", uleaf 16)] []

/-- A host whose memory reads yield the bytes of "hello". -/
def hostHello : Host :=
  { readMemory := fun _ _ => some [104, 101, 108, 108, 111]
    create := fun _ _ _ => blankSB }

theorem c2_reported_len_clamped_witness :
    PrettyStaticString.findMemberRecursive strObjA "head_" = some (uleaf 4096) ∧
    PrettyStaticString.findMemberRecursive strObjA "tail_" = some (uleaf 4101) ∧
    PrettyStaticString.findMemberRecursive strObjA "max_length_" = some (uleaf 16) ∧
    (uleaf 4096).uval.getD 0 ≠ 0 ∧ (uleaf 4101).uval.getD 0 ≠ 0 ∧
    (uleaf 4096).uval.getD 0 ≤ (uleaf 4101).uval.getD 0 ∧
    (∃ p : String,
      PrettyStaticString.static_string_summary hostHello strObjA =
        p ++ " len=" ++
          toString (clampSpecLen ((uleaf 4096).uval.getD 0) ((uleaf 4101).uval.getD 0)
            ((uleaf 16).uval.getD 0)) ++
          " cap=" ++ toString ((uleaf 16).uval.getD 0)) :=
  ⟨rfl, rfl, rfl, by decide, by decide, by decide,
    c2_reported_len_clamped hostHello strObjA (uleaf 4096) (uleaf 4101) (uleaf 16)
      rfl rfl rfl (by decide) (by decide) (by decide)⟩

/-- A static-string object with a zero head pointer and nonzero tail. -/
def strObjZ : SBValue :=
  .mk true false none none none 0 0 none tiNone
    [("head_", uleaf 0), ("tail_", uleaf 4101), ("max_length_", uleaf 16)] []

theorem c3_zero_or_inverted_reports_len0_witness :
    PrettyStaticString.findMemberRecursive strObjZ "head_" = some (uleaf 0) ∧
    PrettyStaticString.findMemberRecursive strObjZ "tail_" = some (uleaf 4101) ∧
    PrettyStaticString.findMemberRecursive strObjZ "max_length_" = some (uleaf 16) ∧
    ((uleaf 0).uval.getD 0 = 0 ∨ (uleaf 4101).uval.getD 0 = 0 ∨
      (uleaf 4101).uval.getD 0 < (uleaf 0).uval.getD 0) ∧
    PrettyStaticString.static_string_summary hostHello strObjZ =
      "\"\" len=0 cap=" ++ toString ((uleaf 16).uval.getD 0) :=
  ⟨rfl, rfl, rfl, Or.inl (by decide),
    c3_zero_or_inverted_reports_len0 hostHello strObjZ (uleaf 0) (uleaf 4101) (uleaf 16)
      rfl rfl rfl (Or.inl (by decide))⟩

/-- A host whose memory reads yield bytes with a NUL at offset 2. -/
def hostNul : Host :=
  { readMemory := fun _ _ => some [104, 105, 0, 120, 121]
    create := fun _ _ _ => blankSB }

theorem c6_preview_stops_at_nul_witness :
    hostNul.readMemory ((uleaf 4096).uval.getD 0)
      (min (PrettyStaticString.clampedLength ((uleaf 4096).uval.getD 0)
        ((uleaf 4101).uval.getD 0) ((uleaf 16).uval.getD 0)) 1024) =
        some [104, 105, 0, 120, 121] ∧
    ([104, 105, 0, 120, 121] : List Nat).findIdx? (fun x => x == 0) = some 2 ∧
    2 < PrettyStaticString.clampedLength ((uleaf 4096).uval.getD 0)
      ((uleaf 4101).uval.getD 0) ((uleaf 16).uval.getD 0) ∧
    PrettyStaticString.static_string_summary hostNul strObjA =
      "\"" ++ PrettyStaticString.displayText (([104, 105, 0, 120, 121] : List Nat).take 2) ++
        "\" len=" ++
        toString (PrettyStaticString.clampedLength ((uleaf 4096).uval.getD 0)
          ((uleaf 4101).uval.getD 0) ((uleaf 16).uval.getD 0)) ++
        " cap=" ++ toString ((uleaf 16).uval.getD 0) :=
  ⟨rfl, by decide, by decide,
    c6_preview_stops_at_nul hostNul strObjA (uleaf 4096) (uleaf 4101) (uleaf 16)
      [104, 105, 0, 120, 121] 2 rfl rfl rfl (by decide) (by decide) (by decide)
      rfl (by decide) (by decide)⟩

/-- The summary's quoted text is the display rendering of exactly the preview
bytes: whenever previewBytes yields pb, the summary prints displayText pb. -/
theorem static_string_summary_renders_previewBytes (host : Host) (v hd tl mx : SBValue)
    (pb : List Nat)
    (hh : PrettyStaticString.findMemberRecursive v "head_" = some hd)
    (ht : PrettyStaticString.findMemberRecursive v "tail_" = some tl)
    (hm : PrettyStaticString.findMemberRecursive v "max_length_" = some mx)
    (hH : hd.uval.getD 0 ≠ 0) (hT : tl.uval.getD 0 ≠ 0)
    (hle : hd.uval.getD 0 ≤ tl.uval.getD 0)
    (hpb : PrettyStaticString.previewBytes host (hd.uval.getD 0)
        (PrettyStaticString.clampedLength (hd.uval.getD 0) (tl.uval.getD 0)
          (mx.uval.getD 0)) = some pb) :
    PrettyStaticString.static_string_summary host v =
      "\"" ++ PrettyStaticString.displayText pb ++ "\" len=" ++
        toString (PrettyStaticString.clampedLength (hd.uval.getD 0) (tl.uval.getD 0)
          (mx.uval.getD 0)) ++
        " cap=" ++ toString (mx.uval.getD 0) := by
  have hcond : ¬ (hd.uval.getD 0 = 0 ∨ tl.uval.getD 0 = 0 ∨ tl.uval.getD 0 < hd.uval.getD 0) := by
    rintro (h | h | h)
    · exact hH h
    · exact hT h
    · omega
  unfold PrettyStaticString.previewBytes at hpb
  unfold PrettyStaticString.static_string_summary
  rw [hh, ht, hm]
  simp only [hcond, if_false]
  cases hr : host.readMemory (hd.uval.getD 0)
      (min (PrettyStaticString.clampedLength (hd.uval.getD 0) (tl.uval.getD 0)
        (mx.uval.getD 0)) 1024) with
  | none =>
    rw [hr] at hpb
    exact absurd hpb (by simp)
  | some data =>
    rw [hr] at hpb
    have hdata := Option.some.inj hpb
    rw [← hdata]

/-- A backing byte sequence of 1500 letters followed by its first NUL. -/
def c6Backing : List Nat := List.replicate 1500 65 ++ [0]

/-- A host whose reads return the requested prefix of the backing
sequence. -/
def c6HostBig : Host :=
  { readMemory := fun _ len => some (c6Backing.take len)
    create := fun _ _ _ => blankSB }

/-- A static-string object spanning 2000 bytes with no declared capacity
clamp: head 0x1000, tail 0x17D0, capacity 0. -/
def strObjBig : SBValue :=
  .mk true false none none none 0 0 none tiNone
    [("head_", uleaf 4096), ("tail_", uleaf 6096), ("max_length_", uleaf 0)] []

set_option maxRecDepth 20000 in
/-- C6 counterexample: the backing sequence's first NUL sits at offset 1500,
below the reported length 2000, yet the summary's textual preview is not the
first 1500 bytes decoded: the source reads only min(length, 1024) bytes, so
the preview is rendered from the 1024-byte window (and the summary string
indeed prints the rendering of that window). -/
theorem c6_preview_cap_counterexample :
    c6Backing.findIdx? (fun x => x == 0) = some 1500 ∧
    1500 < PrettyStaticString.clampedLength 4096 6096 0 ∧
    PrettyStaticString.previewText c6HostBig 4096
        (PrettyStaticString.clampedLength 4096 6096 0) =
      some (decodeUtf8Replace (c6Backing.take 1024)) ∧
    decodeUtf8Replace (c6Backing.take 1024) ≠ decodeUtf8Replace (c6Backing.take 1500) ∧
    PrettyStaticString.static_string_summary c6HostBig strObjBig =
      "\"" ++ PrettyStaticString.displayText (c6Backing.take 1024) ++ "\" len=" ++
        toString (PrettyStaticString.clampedLength 4096 6096 0) ++
        " cap=" ++ toString (0 : Nat) :=
  ⟨by decide, by decide, by decide, by decide,
    static_string_summary_renders_previewBytes c6HostBig strObjBig
      (uleaf 4096) (uleaf 6096) (uleaf 0) (c6Backing.take 1024)
      rfl rfl rfl (by decide) (by decide) (by decide) (by decide)⟩

/-! The layered value-coercion cascade, worded after the claim. -/

/-- Strategy (1) of the claim: dereference the field once and read its
unsigned value if dereferencing succeeds and yields a valid value. -/
def coerceStrat1 (v : SBValue) (default : Int) : Option Int :=
  match v.deref with
  | some d => if d.valid then some (PrettyStaticVector.uvalOrDefault d default) else none
  | none => none

/-- Strategy (2) of the claim: parse the textual representation as decimal
or, when hex-prefixed, hexadecimal, attempting a second dereference first
when the text looks address-shaped. -/
def coerceStrat2 (v : SBValue) (default : Int) : Option Int :=
  match v.sval with
  | none => none
  | some s0 =>
    let s := s0.trim
    if s.length = 0 then none
    else if s.startsWith "0x" || s.startsWith "-0x" then
      match v.deref with
      | some d2 =>
        if d2.valid then some (PrettyStaticVector.uvalOrDefault d2 default)
        else PrettyStaticVector.pyParseIntHex s
      | none => PrettyStaticVector.pyParseIntHex s
    else PrettyStaticVector.pyParseIntDec s

/-- Strategy (3) of the claim: the direct unsigned-value accessor. -/
def coerceStrat3 (v : SBValue) (default : Int) : Option Int :=
  some (PrettyStaticVector.uvalOrDefault v default)

/-- The coercer worded after the claim: try the three strategies in order,
each failure falling through to the next, total failure giving the default. -/
def coerceUnsignedSpec (sbval : Option SBValue) (default : Int) : Int :=
  match sbval with
  | none => default
  | some v =>
    if ¬ v.valid then default
    else
      match coerceStrat1 v default with
      | some r => r
      | none =>
        match coerceStrat2 v default with
        | some r => r
        | none =>
          match coerceStrat3 v default with
          | some r => r
          | none => default

/-- Step 2 of the source coercer is strategy (2) with fall-through to
step 3. -/
theorem ruvStep2_eq_strat2 (v : SBValue) (default : Int) :
    PrettyStaticVector.ruvStep2 v default =
      match coerceStrat2 v default with
      | some r => r
      | none => PrettyStaticVector.ruvStep3 v default := by
  unfold PrettyStaticVector.ruvStep2 coerceStrat2
  cases hs : v.sval with
  | none => rfl
  | some s0 =>
    by_cases h0 : (s0.trim).length = 0
    · simp [h0]
    · simp only [h0, if_false]
      by_cases hx : ((s0.trim).startsWith "0x" || (s0.trim).startsWith "-0x") = true
      · simp only [hx, if_true]
        cases hd : v.deref with
        | some d2 =>
          by_cases hv : d2.valid = true
          · simp [hv]
          · simp [hv]
        | none => rfl
      · simp only [Bool.not_eq_true] at hx
        simp [hx]

/-- C7: the source value coercer equals the claim-worded cascade of the three
strategies, with every failure falling through and total failure giving the
default. -/
theorem c7_coercer_cascade (sbval : Option SBValue) (default : Int) :
    PrettyStaticVector.read_unsigned_value sbval default =
      coerceUnsignedSpec sbval default := by
  cases sbval with
  | none => rfl
  | some v =>
    unfold PrettyStaticVector.read_unsigned_value coerceUnsignedSpec
    by_cases hv : v.valid = true
    · simp only [hv, not_true, if_false, Bool.not_eq_true, if_neg]
      cases hd : v.deref with
      | some d =>
        by_cases hdv : d.valid = true
        · simp [coerceStrat1, hd, hdv]
        · simp only [coerceStrat1, hd, hdv, Bool.false_eq_true, if_false,
            ruvStep2_eq_strat2]
          cases h2 : coerceStrat2 v default <;>
            simp [h2, coerceStrat3, PrettyStaticVector.ruvStep3]
      | none =>
        simp only [coerceStrat1, hd, ruvStep2_eq_strat2]
        cases h2 : coerceStrat2 v default <;>
          simp [h2, coerceStrat3, PrettyStaticVector.ruvStep3]
    · simp [hv]

/-- C8 (amended): the array-backing locator probes _M_elems first and then
__elems_.  When _M_elems is valid with at least one child, both the first
element's load address and the child count come from it; when _M_elems is
absent or invalid and __elems_ is valid with at least one child, both come
from __elems_.  In the mixed corner where _M_elems is valid but childless
while __elems_ is valid with at least one child, the address comes from
__elems_ but the byte count is the _M_elems child count 0 (the byte-count
probe has no at-least-one-child requirement).  When neither probe yields a
first element the locator falls back to the address of the array value
itself. -/
theorem c8_array_backing_locator (arr : SBValue) :
    (∀ (m first : SBValue) (rest : List SBValue),
      SBValue.lookupMember arr.members "_M_elems" = some m → m.valid = true →
      m.children = first :: rest →
      PrettyStaticVector.get_arr_first_byte_addr arr = first.loadAddr ∧
        PrettyStaticVector.get_arr_num_bytes arr = m.children.length) ∧
    (∀ (m first : SBValue) (rest : List SBValue),
      (∀ m0, SBValue.lookupMember arr.members "_M_elems" = some m0 → m0.valid = false) →
      SBValue.lookupMember arr.members "__elems_" = some m → m.valid = true →
      m.children = first :: rest →
      PrettyStaticVector.get_arr_first_byte_addr arr = first.loadAddr ∧
        PrettyStaticVector.get_arr_num_bytes arr = m.children.length) ∧
    (∀ (m0 m first : SBValue) (rest : List SBValue),
      SBValue.lookupMember arr.members "_M_elems" = some m0 → m0.valid = true →
      m0.children = [] →
      SBValue.lookupMember arr.members "__elems_" = some m → m.valid = true →
      m.children = first :: rest →
      PrettyStaticVector.get_arr_first_byte_addr arr = first.loadAddr ∧
        PrettyStaticVector.get_arr_num_bytes arr = 0) ∧
    (PrettyStaticVector.arrElemsFirstAddr arr "_M_elems" = none →
      PrettyStaticVector.arrElemsFirstAddr arr "__elems_" = none →
      PrettyStaticVector.get_arr_first_byte_addr arr = arr.addrOfLoad) := by
  refine ⟨?_, ?_, ?_, ?_⟩
  · intro m first rest h1 h2 h3
    constructor
    · unfold PrettyStaticVector.get_arr_first_byte_addr PrettyStaticVector.arrElemsFirstAddr
      rw [h1]
      simp [h2, h3]
    · unfold PrettyStaticVector.get_arr_num_bytes PrettyStaticVector.arrNumBytesVia
      rw [h1]
      simp [h2]
  · intro m first rest hno h1 h2 h3
    have hskipA : PrettyStaticVector.arrElemsFirstAddr arr "_M_elems" = none := by
      unfold PrettyStaticVector.arrElemsFirstAddr
      cases hL : SBValue.lookupMember arr.members "_M_elems" with
      | none => rfl
      | some m0 => simp [hno m0 hL]
    have hskipB : PrettyStaticVector.arrNumBytesVia arr "_M_elems" = none := by
      unfold PrettyStaticVector.arrNumBytesVia
      cases hL : SBValue.lookupMember arr.members "_M_elems" with
      | none => rfl
      | some m0 => simp [hno m0 hL]
    constructor
    · unfold PrettyStaticVector.get_arr_first_byte_addr
      rw [hskipA]
      unfold PrettyStaticVector.arrElemsFirstAddr
      rw [h1]
      simp [h2, h3]
    · unfold PrettyStaticVector.get_arr_num_bytes
      rw [hskipB]
      unfold PrettyStaticVector.arrNumBytesVia
      rw [h1]
      simp [h2]
  · intro m0 m first rest h0 h0v h0c h1 h2 h3
    have hskipA : PrettyStaticVector.arrElemsFirstAddr arr "_M_elems" = none := by
      unfold PrettyStaticVector.arrElemsFirstAddr
      rw [h0]
      simp [h0v, h0c]
    constructor
    · unfold PrettyStaticVector.get_arr_first_byte_addr
      rw [hskipA]
      unfold PrettyStaticVector.arrElemsFirstAddr
      rw [h1]
      simp [h2, h3]
    · unfold PrettyStaticVector.get_arr_num_bytes PrettyStaticVector.arrNumBytesVia
      rw [h0]
      simp [h0v, h0c]
  · intro ha hb
    unfold PrettyStaticVector.get_arr_first_byte_addr
    rw [ha, hb]

/-- A byte element of the backing array living at the given load address. -/
def byteLeaf (a : Nat) : SBValue :=
  .mk true false none none none a 0 none tiNone [] []

/-- A libstdc++-shaped elements member with three byte children. -/
def melemsA : SBValue :=
  .mk true false none none none 0 0 none tiNone []
    [byteLeaf 8192, byteLeaf 8193, byteLeaf 8194]

/-- A backing array value holding the _M_elems member. -/
def arrObjA : SBValue :=
  .mk true false none none none 0 9999 none tiNone [("_M_elems", melemsA)] []

/-- A valid but childless _M_elems member (the mixed corner). -/
def c8MixMelems : SBValue :=
  .mk true false none none none 0 0 none tiNone [] []

/-- A valid __elems_ member with three byte children. -/
def c8MixElems : SBValue :=
  .mk true false none none none 0 0 none tiNone []
    [byteLeaf 8192, byteLeaf 8193, byteLeaf 8194]

/-- A backing array value with both internal members present: _M_elems valid
but childless, __elems_ valid with three children. -/
def c8MixArr : SBValue :=
  .mk true false none none none 0 7777 none tiNone
    [("_M_elems", c8MixMelems), ("__elems_", c8MixElems)] []

/-- C8 counterexample: with a valid but childless _M_elems next to a valid
__elems_ holding three children, the matched array (__elems_, valid with at
least one child) supplies the first-element load address, but the byte count
is the _M_elems child count 0, not that array's child count 3 — so the claim
as stated fails here. -/
theorem c8_locator_counterexample :
    SBValue.lookupMember c8MixArr.members "__elems_" = some c8MixElems ∧
    c8MixElems.valid = true ∧
    c8MixElems.children.length = 3 ∧
    PrettyStaticVector.get_arr_first_byte_addr c8MixArr = (byteLeaf 8192).loadAddr ∧
    PrettyStaticVector.get_arr_num_bytes c8MixArr = 0 ∧
    PrettyStaticVector.get_arr_num_bytes c8MixArr ≠ c8MixElems.children.length :=
  ⟨rfl, rfl, rfl, rfl, rfl, by decide⟩

theorem c8_array_backing_locator_witness :
    SBValue.lookupMember arrObjA.members "_M_elems" = some melemsA ∧
    melemsA.valid = true ∧
    melemsA.children = byteLeaf 8192 :: [byteLeaf 8193, byteLeaf 8194] ∧
    PrettyStaticVector.get_arr_first_byte_addr arrObjA = (byteLeaf 8192).loadAddr ∧
    PrettyStaticVector.get_arr_num_bytes arrObjA = melemsA.children.length ∧
    PrettyStaticVector.get_arr_first_byte_addr c8MixArr = (byteLeaf 8192).loadAddr ∧
    PrettyStaticVector.get_arr_num_bytes c8MixArr = 0 :=
  ⟨rfl, rfl, rfl,
    ((c8_array_backing_locator arrObjA).1 melemsA (byteLeaf 8192)
      [byteLeaf 8193, byteLeaf 8194] rfl rfl rfl).1,
    ((c8_array_backing_locator arrObjA).1 melemsA (byteLeaf 8192)
      [byteLeaf 8193, byteLeaf 8194] rfl rfl rfl).2,
    ((c8_array_backing_locator c8MixArr).2.2.1 c8MixMelems c8MixElems (byteLeaf 8192)
      [byteLeaf 8193, byteLeaf 8194] rfl rfl rfl rfl rfl rfl).1,
    ((c8_array_backing_locator c8MixArr).2.2.1 c8MixMelems c8MixElems (byteLeaf 8192)
      [byteLeaf 8193, byteLeaf 8194] rfl rfl rfl rfl rfl rfl).2⟩

/-- C9: a count field that evaluates to zero makes has_children false and
num_children zero for both providers, regardless of any capacity. -/
theorem c9_size_zero (v : SBValue)
    (hvec : ∀ szm, PrettyStaticVector.findMemberDirect v "elementsCount" = some szm →
      szm.uval.getD 0 = 0)
    (hadpt : PrettyStaticVector.read_unsigned_value
      (PrettyStaticVector.findMemberDirect v "elements_count_") 0 = 0) :
    PrettyStaticVector.StaticVectorSynthProvider.num_children
      (PrettyStaticVector.StaticVectorSynthProvider.init v) = 0 ∧
    PrettyStaticVector.StaticVectorSynthProvider.has_children
      (PrettyStaticVector.StaticVectorSynthProvider.init v) = false ∧
    PrettyStaticVector.StaticVectorAdapterSynthProvider.num_children
      (PrettyStaticVector.StaticVectorAdapterSynthProvider.init v) = 0 ∧
    PrettyStaticVector.StaticVectorAdapterSynthProvider.has_children
      (PrettyStaticVector.StaticVectorAdapterSynthProvider.init v) = false := by
  have hsz : PrettyStaticVector.readElementsCount v = 0 := by
    unfold PrettyStaticVector.readElementsCount
    cases h : PrettyStaticVector.findMemberDirect v "elementsCount" with
    | none => rfl
    | some szm => exact hvec szm h
  refine ⟨?_, ?_, ?_, ?_⟩
  · simp [PrettyStaticVector.StaticVectorSynthProvider.num_children,
      PrettyStaticVector.StaticVectorSynthProvider.computeLayout,
      PrettyStaticVector.StaticVectorSynthProvider.init, hsz]
  · simp [PrettyStaticVector.StaticVectorSynthProvider.has_children,
      PrettyStaticVector.StaticVectorSynthProvider.computeLayout,
      PrettyStaticVector.StaticVectorSynthProvider.init, hsz]
  · simp [PrettyStaticVector.StaticVectorAdapterSynthProvider.num_children,
      PrettyStaticVector.StaticVectorAdapterSynthProvider.computeLayout,
      PrettyStaticVector.StaticVectorAdapterSynthProvider.init, hadpt]
  · simp [PrettyStaticVector.StaticVectorAdapterSynthProvider.has_children,
      PrettyStaticVector.StaticVectorAdapterSynthProvider.computeLayout,
      PrettyStaticVector.StaticVectorAdapterSynthProvider.init, hadpt]

/-- A vector object with no members at all: both count fields evaluate to
zero through their fallbacks. -/
def emptyObj : SBValue :=
  .mk true false none none none 0 0 none tiNone [] []

theorem c9_size_zero_witness :
    PrettyStaticVector.read_unsigned_value
      (PrettyStaticVector.findMemberDirect emptyObj "elements_count_") 0 = 0 ∧
    PrettyStaticVector.StaticVectorSynthProvider.num_children
      (PrettyStaticVector.StaticVectorSynthProvider.init emptyObj) = 0 ∧
    PrettyStaticVector.StaticVectorSynthProvider.has_children
      (PrettyStaticVector.StaticVectorSynthProvider.init emptyObj) = false ∧
    PrettyStaticVector.StaticVectorAdapterSynthProvider.num_children
      (PrettyStaticVector.StaticVectorAdapterSynthProvider.init emptyObj) = 0 ∧
    PrettyStaticVector.StaticVectorAdapterSynthProvider.has_children
      (PrettyStaticVector.StaticVectorAdapterSynthProvider.init emptyObj) = false :=
  ⟨rfl,
    (c9_size_zero emptyObj (fun szm h => Option.noConfusion h) rfl).1,
    (c9_size_zero emptyObj (fun szm h => Option.noConfusion h) rfl).2.1,
    (c9_size_zero emptyObj (fun szm h => Option.noConfusion h) rfl).2.2.1,
    (c9_size_zero emptyObj (fun szm h => Option.noConfusion h) rfl).2.2.2⟩

/-- C10: with the backing array field absent or invalid, StaticVectorSummary
reports only the size, with no capacity figure and no element preview. -/
theorem c10_missing_arr_summary (host : Host) (v : SBValue)
    (h : PrettyStaticVector.findMemberDirect v "arr" = none) :
    PrettyStaticVector.StaticVectorSummary host v =
      "static_vector(size=" ++ toString (PrettyStaticVector.readElementsCount v) ++ ")" := by
  unfold PrettyStaticVector.StaticVectorSummary
  rw [h]

theorem c10_missing_arr_summary_witness :
    PrettyStaticVector.findMemberDirect emptyObj "arr" = none ∧
    PrettyStaticVector.StaticVectorSummary hostHello emptyObj =
      "static_vector(size=" ++ toString (PrettyStaticVector.readElementsCount emptyObj) ++ ")" :=
  ⟨rfl, c10_missing_arr_summary hostHello emptyObj rfl⟩

/-- C5: under a resolved element type, nonzero base address and positive
stride, each provider yields a valid child exactly for indices in [0, size);
in particular the index equal to size and the index -1 both yield an absent
child. -/
theorem c5_index_bounds (stv : PrettyStaticVector.VecSynthState)
    (sta : PrettyStaticVector.AdapterSynthState) (t u : ElemType)
    (h1 : (PrettyStaticVector.StaticVectorSynthProvider.computeLayout stv).elemType = some t)
    (h2 : t.valid = true)
    (h3 : ((PrettyStaticVector.StaticVectorSynthProvider.computeLayout stv).dataAddr).getD 0 ≠ 0)
    (h4 : 0 < (PrettyStaticVector.StaticVectorSynthProvider.computeLayout stv).elemSize)
    (h5 : (PrettyStaticVector.StaticVectorAdapterSynthProvider.computeLayout sta).elemType = some u)
    (h6 : u.valid = true)
    (h7 : ((PrettyStaticVector.StaticVectorAdapterSynthProvider.computeLayout sta).baseAddr).getD 0 ≠ 0)
    (h8 : 0 < (PrettyStaticVector.StaticVectorAdapterSynthProvider.computeLayout sta).elemSize) :
    (∀ i : Int,
      PrettyStaticVector.StaticVectorSynthProvider.get_child_at_index stv i ≠ none ↔
        0 ≤ i ∧ i < (((PrettyStaticVector.StaticVectorSynthProvider.computeLayout stv).size).getD 0 : Nat)) ∧
    PrettyStaticVector.StaticVectorSynthProvider.get_child_at_index stv
      (((PrettyStaticVector.StaticVectorSynthProvider.computeLayout stv).size).getD 0 : Nat) = none ∧
    PrettyStaticVector.StaticVectorSynthProvider.get_child_at_index stv (-1) = none ∧
    (∀ i : Int,
      PrettyStaticVector.StaticVectorAdapterSynthProvider.get_child_at_index sta i ≠ none ↔
        0 ≤ i ∧ i < ((PrettyStaticVector.StaticVectorAdapterSynthProvider.computeLayout sta).size).getD 0) ∧
    PrettyStaticVector.StaticVectorAdapterSynthProvider.get_child_at_index sta
      (((PrettyStaticVector.StaticVectorAdapterSynthProvider.computeLayout sta).size).getD 0) = none ∧
    PrettyStaticVector.StaticVectorAdapterSynthProvider.get_child_at_index sta (-1) = none := by
  have hvec : ∀ i : Int,
      PrettyStaticVector.StaticVectorSynthProvider.get_child_at_index stv i ≠ none ↔
        0 ≤ i ∧ i < (((PrettyStaticVector.StaticVectorSynthProvider.computeLayout stv).size).getD 0 : Nat) := by
    intro i
    unfold PrettyStaticVector.StaticVectorSynthProvider.get_child_at_index
    dsimp only
    rw [h1]
    simp only [truthyElem, h2]
    by_cases hc : i < 0 ∨
        ((((PrettyStaticVector.StaticVectorSynthProvider.computeLayout stv).size).getD 0 : Nat) : Int) ≤ i ∨
        (true = false) ∨
        ((PrettyStaticVector.StaticVectorSynthProvider.computeLayout stv).dataAddr).getD 0 = 0
    · rw [if_pos hc]
      rcases hc with hc | hc | hc | hc
      · simp; omega
      · simp; omega
      · exact absurd hc (by simp)
      · exact absurd hc h3
    · rw [if_neg hc]
      push_neg at hc
      simp only [ne_eq, not_or] at hc
      constructor
      · intro _; omega
      · intro _
        exact fun hx => Option.noConfusion hx
  have hadp : ∀ i : Int,
      PrettyStaticVector.StaticVectorAdapterSynthProvider.get_child_at_index sta i ≠ none ↔
        0 ≤ i ∧ i < ((PrettyStaticVector.StaticVectorAdapterSynthProvider.computeLayout sta).size).getD 0 := by
    intro i
    unfold PrettyStaticVector.StaticVectorAdapterSynthProvider.get_child_at_index
    dsimp only
    rw [h5]
    simp only [truthyElem, h6]
    by_cases hc : i < 0 ∨
        ((PrettyStaticVector.StaticVectorAdapterSynthProvider.computeLayout sta).size).getD 0 ≤ i ∨
        (true = false) ∨
        ((PrettyStaticVector.StaticVectorAdapterSynthProvider.computeLayout sta).baseAddr).getD 0 = 0 ∨
        (PrettyStaticVector.StaticVectorAdapterSynthProvider.computeLayout sta).elemSize = 0
    · rw [if_pos hc]
      rcases hc with hc | hc | hc | hc | hc
      · simp; omega
      · simp; omega
      · exact absurd hc (by simp)
      · exact absurd hc h7
      · omega
    · rw [if_neg hc]
      push_neg at hc
      constructor
      · intro _; omega
      · intro _
        exact fun hx => Option.noConfusion hx
  refine ⟨hvec, ?_, ?_, hadp, ?_, ?_⟩
  · by_contra hne
    have := (hvec _).mp hne
    omega
  · by_contra hne
    have := (hvec _).mp hne
    omega
  · by_contra hne
    have := (hadp _).mp hne
    omega
  · by_contra hne
    have := (hadp _).mp hne
    omega

/-- A valid four-byte element type. -/
def tInt : ElemType := ⟨true, some "int", 4⟩

/-- A fully cached vector provider state with size 2 and base 0x1000. -/
def c5StV : PrettyStaticVector.VecSynthState :=
  ⟨emptyObj, some tInt, 4, some 4096, some 2⟩

/-- A fully cached adapter provider state with size 2 and base 0x1000. -/
def c5StA : PrettyStaticVector.AdapterSynthState :=
  ⟨emptyObj, some tInt, 4, some 4096, some 2⟩

theorem c5_index_bounds_witness :
    (PrettyStaticVector.StaticVectorSynthProvider.computeLayout c5StV).elemType = some tInt ∧
    tInt.valid = true ∧
    ((PrettyStaticVector.StaticVectorSynthProvider.computeLayout c5StV).dataAddr).getD 0 ≠ 0 ∧
    0 < (PrettyStaticVector.StaticVectorSynthProvider.computeLayout c5StV).elemSize ∧
    PrettyStaticVector.StaticVectorSynthProvider.get_child_at_index c5StV 1 ≠ none ∧
    PrettyStaticVector.StaticVectorSynthProvider.get_child_at_index c5StV 2 = none ∧
    PrettyStaticVector.StaticVectorSynthProvider.get_child_at_index c5StV (-1) = none ∧
    PrettyStaticVector.StaticVectorAdapterSynthProvider.get_child_at_index c5StA 0 ≠ none ∧
    PrettyStaticVector.StaticVectorAdapterSynthProvider.get_child_at_index c5StA 2 = none ∧
    PrettyStaticVector.StaticVectorAdapterSynthProvider.get_child_at_index c5StA (-1) = none := by
  have h := c5_index_bounds c5StV c5StA tInt tInt rfl rfl (by decide) (by decide)
    rfl rfl (by decide) (by decide)
  refine ⟨rfl, rfl, by decide, by decide, ?_, ?_, ?_, ?_, ?_, ?_⟩
  · exact (h.1 1).mpr (by decide)
  · exact h.2.1
  · exact h.2.2.1
  · exact (h.2.2.2.1 0).mpr (by decide)
  · exact h.2.2.2.2.1
  · exact h.2.2.2.2.2

/-- A valid but zero-sized element type. -/
def c4Elem : ElemType := ⟨true, some "Empty", 0⟩

/-- A libstdc++-shaped elements member with one byte child at 0x3000. -/
def c4Melems : SBValue :=
  .mk true false none none none 0 0 none tiNone [] [byteLeaf 12288]

/-- A backing array value holding the _M_elems member. -/
def c4Arr : SBValue :=
  .mk true false none none none 0 0 none tiNone [("_M_elems", c4Melems)] []

/-- A static_vector object whose element type is valid but zero-sized, with
two declared elements and a located backing array. -/
def c4Obj : SBValue :=
  .mk true false none none none 0 0 none ⟨true, some c4Elem, none⟩
    [("elementsCount", uleaf 2), ("arr", c4Arr)] []

/-- C4 counterexample: on a vector whose element stride is 0 because the
element type is valid but zero-sized, the byte-array provider does not return
an absent child: it returns a created child (pinned at the base address), so
the claim fails for StaticVectorSynthProvider. -/
theorem c4_stride_zero_counterexample :
    (PrettyStaticVector.StaticVectorSynthProvider.init c4Obj).elemSize = 0 ∧
    PrettyStaticVector.StaticVectorSynthProvider.get_child_at_index
      (PrettyStaticVector.StaticVectorSynthProvider.init c4Obj) 0 =
      some ("[0]", 12288, c4Elem) :=
  ⟨rfl, rfl⟩

/-- C4 amended: when the element type is unresolved or invalid (the only way
the stride can be 0 for the adapter-independent reasons shared by both
providers), get_child_at_index of both providers returns an absent child for
every index; the adapter provider moreover returns an absent child whenever
its element size is 0.  The byte-array provider performs no stride check, so
a valid zero-sized element type yields a created child there (see the
counterexample); no division is performed by either child lookup. -/
theorem c4_stride_zero_amended (stv : PrettyStaticVector.VecSynthState)
    (sta : PrettyStaticVector.AdapterSynthState) (i j : Int) :
    (truthyElem (PrettyStaticVector.StaticVectorSynthProvider.computeLayout stv).elemType = false →
      PrettyStaticVector.StaticVectorSynthProvider.get_child_at_index stv i = none) ∧
    (truthyElem (PrettyStaticVector.StaticVectorAdapterSynthProvider.computeLayout sta).elemType = false →
      PrettyStaticVector.StaticVectorAdapterSynthProvider.get_child_at_index sta j = none) ∧
    ((PrettyStaticVector.StaticVectorAdapterSynthProvider.computeLayout sta).elemSize = 0 →
      PrettyStaticVector.StaticVectorAdapterSynthProvider.get_child_at_index sta j = none) := by
  refine ⟨?_, ?_, ?_⟩
  · intro h
    unfold PrettyStaticVector.StaticVectorSynthProvider.get_child_at_index
    dsimp only
    rw [if_pos (Or.inr (Or.inr (Or.inl h)))]
  · intro h
    unfold PrettyStaticVector.StaticVectorAdapterSynthProvider.get_child_at_index
    dsimp only
    rw [if_pos (Or.inr (Or.inr (Or.inl h)))]
  · intro h
    unfold PrettyStaticVector.StaticVectorAdapterSynthProvider.get_child_at_index
    dsimp only
    rw [if_pos (Or.inr (Or.inr (Or.inr (Or.inr h))))]

/-- A cached vector provider state with an unresolved element type. -/
def c4StV : PrettyStaticVector.VecSynthState :=
  ⟨emptyObj, none, 0, some 4096, some 2⟩

/-- A cached adapter provider state with an unresolved element type. -/
def c4StA : PrettyStaticVector.AdapterSynthState :=
  ⟨emptyObj, none, 0, some 4096, some 2⟩

/-- A cached adapter provider state with a valid type but element size 0. -/
def c4StB : PrettyStaticVector.AdapterSynthState :=
  ⟨emptyObj, some tInt, 0, some 4096, some 2⟩

theorem c4_stride_zero_amended_witness :
    truthyElem (PrettyStaticVector.StaticVectorSynthProvider.computeLayout c4StV).elemType = false ∧
    PrettyStaticVector.StaticVectorSynthProvider.get_child_at_index c4StV 0 = none ∧
    truthyElem (PrettyStaticVector.StaticVectorAdapterSynthProvider.computeLayout c4StA).elemType = false ∧
    PrettyStaticVector.StaticVectorAdapterSynthProvider.get_child_at_index c4StA 0 = none ∧
    (PrettyStaticVector.StaticVectorAdapterSynthProvider.computeLayout c4StB).elemSize = 0 ∧
    PrettyStaticVector.StaticVectorAdapterSynthProvider.get_child_at_index c4StB 0 = none :=
  ⟨rfl, (c4_stride_zero_amended c4StV c4StA 0 0).1 rfl, rfl,
    (c4_stride_zero_amended c4StV c4StA 0 0).2.1 rfl, rfl,
    (c4_stride_zero_amended c4StV c4StB 0 0).2.2 rfl⟩
